import Mathlib

/-!
Verification development for the on-premises container monitor daemon
(`option-5-docker/src/monitor.py`).

The daemon's data model and operations are shallowly embedded below:
Python floats (wall-clock seconds, latencies in milliseconds, metric
values) are modelled as rationals (`Rat`); Python dicts keyed by strings
are modelled as insertion-ordered association lists; the CloudWatch
client and the socket layer are modelled as oracles describing the
outcome of each external call; a Python `try`/`except Exception` block
is modelled as an `Except`-valued body together with a total wrapper
that maps the error case to the handler's behaviour.
-/

/-! ### Python string primitives

Python's `str.split`, `str.strip` and `str.lower` are embedded as
structurally recursive functions over the character list of a `String`,
so that they evaluate inside the kernel.  `str.strip` is modelled for
ASCII whitespace.
-/

/-- One-separator split, as Python `s.split(sep)`: `"".split(sep)` is
`[""]`, and `n` separators yield `n + 1` fields. -/
def splitOnChar (sep : Char) : List Char → List (List Char)
  | [] => [[]]
  | c :: cs =>
    if c = sep then [] :: splitOnChar sep cs
    else
      match splitOnChar sep cs with
      | h :: t => (c :: h) :: t
      | [] => [[c]]

/-- Python `s.split(sep)` on `String`. -/
def pySplit (s : String) (sep : Char) : List String :=
  (splitOnChar sep s.data).map String.mk

/-- Python `s.strip()` (ASCII whitespace). -/
def pyStrip (s : String) : String :=
  String.mk (((s.data.dropWhile Char.isWhitespace).reverse.dropWhile
    Char.isWhitespace).reverse)

/-- Python `s.lower()` (ASCII letters). -/
def pyLower (s : String) : String :=
  String.mk (s.data.map Char.toLower)

/-- Truthiness of a Python `Optional[str]`: `None` and `""` are falsy. -/
def pyTruthyStr : Option String → Bool
  | none => false
  | some s => s ≠ ""

/-! ### Data model -/

/-- One CloudWatch metric data point, as built by `monitor.py`
(`MetricName`, `Dimensions` as name/value pairs, `Value`, `Unit`,
`Timestamp`). -/
structure MetricPoint where
  MetricName : String
  Dimensions : List (String × String)
  Value : Rat
  Unit : String
  Timestamp : Rat
deriving DecidableEq, Repr

/-- The configuration dict built by `ContainerMonitor._load_config`.
Numeric environment values are modelled post-`int(...)` conversion. -/
structure Config where
  aws_access_key_id : Option String
  aws_secret_access_key : Option String
  aws_region : String
  container_name : String
  heartbeat_interval : Int
  cloudwatch_namespace : String
  monitor_targets : List String
  target_port : Int
  target_timeout : Int
  enable_health_endpoint : Bool
  health_port : Int
deriving DecidableEq, Repr

/-- The process environment read by `_load_config`.  `none` models an
unset variable; `hostname` is the `socket.gethostname()` fallback.
Integer-valued variables are modelled as already parsed by `int(...)`. -/
structure Env where
  AWS_ACCESS_KEY_ID : Option String
  AWS_SECRET_ACCESS_KEY : Option String
  AWS_REGION : Option String
  CONTAINER_NAME : Option String
  hostname : String
  HEARTBEAT_INTERVAL : Option Int
  CLOUDWATCH_NAMESPACE : Option String
  MONITOR_TARGETS : Option String
  TARGET_PORT : Option Int
  TARGET_TIMEOUT : Option Int
  ENABLE_HEALTH_ENDPOINT : Option String
  HEALTH_PORT : Option Int
deriving DecidableEq, Repr

/-- One entry of the `self.target_status` dict
(`online`, `response_time`, `last_check`). -/
structure StatusEntry where
  online : Bool
  response_time : Rat
  last_check : Rat
deriving DecidableEq, Repr

/-- The mutable state of a `ContainerMonitor` instance that the claims
are about: `running`, `start_time`, `last_heartbeat`, `target_status`
(an insertion-ordered dict). -/
structure MonitorState where
  running : Bool
  start_time : Rat
  last_heartbeat : Option Rat
  target_status : List (String × StatusEntry)
deriving DecidableEq, Repr

/-! ### Configuration loading (`_parse_targets`, `_load_config`) -/

/-- `ContainerMonitor._parse_targets`: split on commas, strip each
component, keep the nonempty ones. -/
def _parse_targets (targets_str : String) : List String :=
  if targets_str = "" then []
  else ((pySplit targets_str ',').map pyStrip).filter (fun t => t ≠ "")

/-- `ContainerMonitor._load_config`: builds the config dict from the
environment with the source's defaults, then rejects (via
`sys.exit(1)`, modelled as `Except.error`) exactly when either AWS
credential is missing or empty.  No other validation is performed. -/
def _load_config (env : Env) : Except String Config :=
  let config : Config := {
    aws_access_key_id := env.AWS_ACCESS_KEY_ID
    aws_secret_access_key := env.AWS_SECRET_ACCESS_KEY
    aws_region := env.AWS_REGION.getD "us-east-1"
    container_name := env.CONTAINER_NAME.getD env.hostname
    heartbeat_interval := env.HEARTBEAT_INTERVAL.getD 300
    cloudwatch_namespace := env.CLOUDWATCH_NAMESPACE.getD "ContainerMonitoring/Heartbeat"
    monitor_targets := _parse_targets (env.MONITOR_TARGETS.getD "")
    target_port := env.TARGET_PORT.getD 80
    target_timeout := env.TARGET_TIMEOUT.getD 5
    enable_health_endpoint := pyLower (env.ENABLE_HEALTH_ENDPOINT.getD "false") = "true"
    health_port := env.HEALTH_PORT.getD 8080 }
  if ¬ pyTruthyStr config.aws_access_key_id ∨ ¬ pyTruthyStr config.aws_secret_access_key then
    Except.error "AWS_ACCESS_KEY_ID and AWS_SECRET_ACCESS_KEY must be set"
  else
    Except.ok config

/-! ### Connectivity probing (`check_target_connectivity`) -/

/-- The observable outcome of one probe's socket interaction:
the two `time.time()` readings taken at entry and at the point where
the result is produced, and the behaviour of the
`connect_ex` call — either a returned error code (`ok code`, `0` means
connected) or a raised exception such as a host-resolution failure
(`error msg`). -/
structure ProbeEvent where
  startTime : Rat
  endTime : Rat
  connectResult : Except String Int
deriving Repr

/-- `ContainerMonitor.check_target_connectivity`: returns
`(is_online, duration)` where `duration = (time.time() - start_time) * 1000`;
the `except Exception` arm returns `(False, duration)`, so no failure
mode escapes the function. -/
def check_target_connectivity (ev : ProbeEvent) : Bool × Rat :=
  match ev.connectResult with
  | Except.ok code => (code == 0, (ev.endTime - ev.startTime) * 1000)
  | Except.error _ => (false, (ev.endTime - ev.startTime) * 1000)

/-! ### The `target_status` dict -/

/-- Python dict assignment `d[k] = v`: overwrite in place if the key is
present, else append (insertion order preserved). -/
def dictSet (k : String) (v : StatusEntry) :
    List (String × StatusEntry) → List (String × StatusEntry)
  | [] => [(k, v)]
  | (k', v') :: rest =>
    if k' = k then (k, v) :: rest else (k', v') :: dictSet k v rest

/-- Python dict lookup `d.get(k)`. -/
def dictGet (k : String) : List (String × StatusEntry) → Option StatusEntry
  | [] => none
  | (k', v) :: rest => if k' = k then some v else dictGet k rest

/-- The `StatusEntry` written for one target during a sweep at wall
time `current_time`. -/
def mkEntry (probeEv : String → ProbeEvent) (current_time : Rat) (target : String) :
    StatusEntry :=
  let r := check_target_connectivity (probeEv target)
  { online := r.1, response_time := r.2, last_check := current_time }

/-- The per-target loop of `send_target_metrics`, restricted to its
writes into `self.target_status`: one dict assignment per target, in
order. -/
def sweepWrite (probeEv : String → ProbeEvent) (current_time : Rat) :
    List String → List (String × StatusEntry) → List (String × StatusEntry)
  | [], ts => ts
  | target :: rest, ts =>
    sweepWrite probeEv current_time rest
      (dictSet target (mkEntry probeEv current_time target) ts)

/-- The sequence of states `self.target_status` passes through during
the per-target loop of `send_target_metrics`: the state before the
loop, then the state after each dict assignment.  Under the
interpreter lock each assignment is atomic, and a concurrent reader
(the Flask health thread) may run between any two of them, so these
are exactly the reader-observable states of one sweep. -/
def sweepStates (probeEv : String → ProbeEvent) (current_time : Rat) :
    List String → List (String × StatusEntry) → List (List (String × StatusEntry))
  | [], ts => [ts]
  | target :: rest, ts =>
    ts :: sweepStates probeEv current_time rest
      (dictSet target (mkEntry probeEv current_time target) ts)

/-! ### Metric construction -/

/-- The two heartbeat metric points built by `send_heartbeat`. -/
def heartbeat_metrics (cfg : Config) (uptime current_time : Rat) : List MetricPoint :=
  [ { MetricName := "ContainerHeartbeat"
      Dimensions := [("ContainerName", cfg.container_name), ("Region", cfg.aws_region)]
      Value := 1
      Unit := "Count"
      Timestamp := current_time },
    { MetricName := "ContainerUptime"
      Dimensions := [("ContainerName", cfg.container_name), ("Region", cfg.aws_region)]
      Value := uptime
      Unit := "Seconds"
      Timestamp := current_time } ]

/-- The `TargetStatus` metric point built for one target. -/
def target_status_metric (cfg : Config) (target : String) (is_online : Bool)
    (current_time : Rat) : MetricPoint :=
  { MetricName := "TargetStatus"
    Dimensions := [("ContainerName", cfg.container_name), ("TargetIP", target),
      ("TargetPort", toString cfg.target_port)]
    Value := if is_online then 1 else 0
    Unit := "Count"
    Timestamp := current_time }

/-- The `TargetResponseTime` metric point built for one online target. -/
def target_response_time_metric (cfg : Config) (target : String) (response_time : Rat)
    (current_time : Rat) : MetricPoint :=
  { MetricName := "TargetResponseTime"
    Dimensions := [("ContainerName", cfg.container_name), ("TargetIP", target),
      ("TargetPort", toString cfg.target_port)]
    Value := response_time
    Unit := "Milliseconds"
    Timestamp := current_time }

/-- The metric list accumulated by the per-target loop of
`send_target_metrics`: per target one `TargetStatus` point, plus one
`TargetResponseTime` point when the target is online. -/
def sweep_metrics (cfg : Config) (probeEv : String → ProbeEvent) (current_time : Rat) :
    List String → List MetricPoint
  | [] => []
  | target :: rest =>
    let r := check_target_connectivity (probeEv target)
    (target_status_metric cfg target r.1 current_time ::
      (if r.1 then [target_response_time_metric cfg target r.2 current_time] else []))
    ++ sweep_metrics cfg probeEv current_time rest

/-! ### Batched emission (`send_target_metrics` batching loop) -/

/-- The slicing loop `for i in range(0, len(metrics), 20): metrics[i:i+20]`.
The fuel argument only bounds the number of iterations; each iteration
consumes at least one element, so fuel `metrics.length` is enough. -/
def chunk20Go : Nat → List MetricPoint → List (List MetricPoint)
  | 0, _ => []
  | _ + 1, [] => []
  | fuel + 1, m :: ms => ((m :: ms).take 20) :: chunk20Go fuel ((m :: ms).drop 20)

/-- The batches of at most 20 points that the loop slices out of the
metric list. -/
def chunk20 (metrics : List MetricPoint) : List (List MetricPoint) :=
  chunk20Go metrics.length metrics

/-- The batches for which `put_metric_data` is actually invoked, given
the sink's response to each call (`sinkOk call batch` is `false` when
that call raises).  The loop body has no handler, so the first raising
call aborts the loop; the calls made are the batches up to and
including the first failing one. -/
def attemptBatches (sinkOk : Nat → List MetricPoint → Bool) :
    Nat → List (List MetricPoint) → List (List MetricPoint)
  | _, [] => []
  | call, batch :: rest =>
    if sinkOk call batch then batch :: attemptBatches sinkOk (call + 1) rest
    else [batch]

/-- Whether every `put_metric_data` call of the batching loop would
succeed, i.e. whether the loop runs to completion without raising. -/
def allCallsOk (sinkOk : Nat → List MetricPoint → Bool) :
    Nat → List (List MetricPoint) → Bool
  | _, [] => true
  | call, batch :: rest => sinkOk call batch && allCallsOk sinkOk (call + 1) rest

/-! ### One sweep (`send_target_metrics`) -/

/-- The external-world behaviour during one `send_target_metrics` call:
the `datetime.now` reading, the socket outcome of each target's probe,
and the sink's response to each `put_metric_data` call. -/
structure SweepOracle where
  now : Rat
  probeEv : String → ProbeEvent
  sinkOk : Nat → List MetricPoint → Bool

/-- The observable result of running the `try` block of
`send_target_metrics`: the monitor state at exit (normal or at the
point of a raise), the batches submitted to the sink, and whether an
exception reached the `except Exception` handler. -/
structure SweepRun where
  state : MonitorState
  attempted : List (List MetricPoint)
  raised : Bool
deriving Repr

/-- `ContainerMonitor.send_target_metrics`: returns immediately when no
targets are configured; otherwise probes every target, writing
`self.target_status[target]` as it goes, then sends the accumulated
metric points in batches of 20.  The per-target writes precede the
batching loop, so even when a sink call raises, the dict already holds
the whole sweep's entries; the raise is caught by the function's
`except Exception` handler. -/
def send_target_metrics_run (cfg : Config) (o : SweepOracle) (st : MonitorState) :
    SweepRun :=
  if cfg.monitor_targets = [] then { state := st, attempted := [], raised := false }
  else
    let ts' := sweepWrite o.probeEv o.now cfg.monitor_targets st.target_status
    let metrics := sweep_metrics cfg o.probeEv o.now cfg.monitor_targets
    let st' : MonitorState := { st with target_status := ts' }
    if metrics = [] then { state := st', attempted := [], raised := false }
    else
      let batches := chunk20 metrics
      { state := st'
        attempted := attemptBatches o.sinkOk 0 batches
        raised := !(allCallsOk o.sinkOk 0 batches) }

/-- The monitor state after `send_target_metrics` returns (its handler
only logs, so the state at the raise point is kept). -/
def send_target_metrics (cfg : Config) (o : SweepOracle) (st : MonitorState) :
    MonitorState :=
  (send_target_metrics_run cfg o st).state

/-! ### Heartbeat (`send_heartbeat`) -/

/-- The `try` block of `send_heartbeat`: builds the two heartbeat
points, calls `put_metric_data` (outcome `hbOk`), and only after a
successful call assigns `self.last_heartbeat = current_time`.  A
raising call reaches `Except.error` before that assignment. -/
def send_heartbeat_body (cfg : Config) (current_time : Rat) (hbOk : Bool)
    (st : MonitorState) : Except String MonitorState :=
  let uptime := current_time - st.start_time
  let _metrics := heartbeat_metrics cfg uptime current_time
  if hbOk then Except.ok { st with last_heartbeat := some current_time }
  else Except.error "Failed to send heartbeat"

/-- `ContainerMonitor.send_heartbeat`: the `except Exception` handler
only logs, so on failure the state is returned unchanged. -/
def send_heartbeat (cfg : Config) (current_time : Rat) (hbOk : Bool)
    (st : MonitorState) : MonitorState :=
  match send_heartbeat_body cfg current_time hbOk st with
  | Except.ok st' => st'
  | Except.error _ => st

/-! ### The scheduler loop (`run`) -/

/-- The external-world behaviour during one iteration of the `while
self.running` loop: the heartbeat's wall-clock reading and sink
outcome, and the sweep's oracle. -/
structure TickOracle where
  hbNow : Rat
  hbOk : Bool
  sweep : SweepOracle

/-- One iteration of the monitoring loop after the interval sleep:
`send_heartbeat`, then `send_target_metrics` if targets are
configured.  Both callees absorb their failures internally, so the
iteration always completes. -/
def run_loop_body (cfg : Config) (o : TickOracle) (st : MonitorState) : MonitorState :=
  let st1 := send_heartbeat cfg o.hbNow o.hbOk st
  if cfg.monitor_targets = [] then st1 else send_target_metrics cfg o.sweep st1

/-- The monitoring loop over a finite schedule of tick oracles. -/
def run_loop (cfg : Config) (os : List TickOracle) (st : MonitorState) : MonitorState :=
  os.foldl (fun s o => run_loop_body cfg o s) st

/-! ### Health endpoint (`run_health_endpoint.health`) -/

/-- The JSON document returned by the `/health` route (`last_heartbeat`
and `timestamp` modelled as wall-clock values rather than their ISO
renderings; the `round(uptime, 1)` presentation step is not part of the
claims and is left as the exact value). -/
structure HealthData where
  status : String
  container_name : String
  uptime_seconds : Rat
  last_heartbeat : Option Rat
  target_status : Option (List (String × StatusEntry))
  timestamp : Rat
deriving DecidableEq, Repr

/-- The `/health` request handler: computed from the live monitor state
on each request; `status` depends only on `self.running`, and
`target_status` is `None` exactly when the configured target list is
empty (Python truthiness of the list). -/
def health (cfg : Config) (st : MonitorState) (now : Rat) : HealthData :=
  { status := if st.running then "healthy" else "unhealthy"
    container_name := cfg.container_name
    uptime_seconds := now - st.start_time
    last_heartbeat := st.last_heartbeat
    target_status := if cfg.monitor_targets = [] then none else some st.target_status
    timestamp := now }

/-! ### Reachable states of the process -/

/-- The monitor states reachable over the process lifetime under a
fixed configuration: the freshly constructed state (`__init__`), the
`running` flag flips of `run`/`stop`, any heartbeat, any completed
sweep, and — because the health thread may observe the dict between
two per-target assignments — any mid-sweep prefix of the per-target
write loop. -/
inductive Reach (cfg : Config) : MonitorState → Prop
  | init (t0 : Rat) :
      Reach cfg { running := false, start_time := t0, last_heartbeat := none,
                  target_status := [] }
  | start (st : MonitorState) : Reach cfg st → Reach cfg { st with running := true }
  | stop (st : MonitorState) : Reach cfg st → Reach cfg { st with running := false }
  | heartbeat (st : MonitorState) (current_time : Rat) (hbOk : Bool) :
      Reach cfg st → Reach cfg (send_heartbeat cfg current_time hbOk st)
  | sweep (st : MonitorState) (o : SweepOracle) :
      Reach cfg st → Reach cfg (send_target_metrics cfg o st)
  | sweepMid (st : MonitorState) (probeEv : String → ProbeEvent)
      (current_time : Rat) (k : Nat) :
      Reach cfg st →
      cfg.monitor_targets ≠ [] →
      Reach cfg
        { st with
          target_status :=
            sweepWrite probeEv current_time (cfg.monitor_targets.take k)
              st.target_status }

/-! ### Concrete instances used by witnesses and counterexamples -/

/-- A representative metric point. -/
def mpt : MetricPoint :=
  { MetricName := "TargetStatus", Dimensions := [], Value := 1, Unit := "Count",
    Timestamp := 0 }

/-- A sink that rejects every call. -/
def sinkNever : Nat → List MetricPoint → Bool := fun _ _ => false

/-- A sink that accepts every call. -/
def sinkAlways : Nat → List MetricPoint → Bool := fun _ _ => true

/-- A sink that accepts only the first call of a tick. -/
def sinkFirstOnly : Nat → List MetricPoint → Bool := fun call _ => call == 0

/-- A probe behaviour: every target connects instantly at wall time 1. -/
def cexProbe : String → ProbeEvent := fun _ =>
  { startTime := 1, endTime := 1, connectResult := Except.ok 0 }

/-- A `target_status` dict left by a previous sweep at wall time 0. -/
def cexOld : List (String × StatusEntry) :=
  [("10.0.0.1", { online := true, response_time := 5, last_check := 0 }),
   ("10.0.0.2", { online := true, response_time := 7, last_check := 0 })]

/-- The dict state after the first of the two per-target assignments of
a sweep at wall time 1 over `cexOld`. -/
def cexMid : List (String × StatusEntry) :=
  (sweepStates cexProbe 1 ["10.0.0.1", "10.0.0.2"] cexOld).getD 1 []

/-- The dict state after both per-target assignments of that sweep. -/
def cexFinal : List (String × StatusEntry) :=
  (sweepStates cexProbe 1 ["10.0.0.1", "10.0.0.2"] cexOld).getD 2 []

/-- An environment with valid credentials, a zero heartbeat interval
and a negative target timeout. -/
def zenv : Env :=
  { AWS_ACCESS_KEY_ID := some "AKIAEXAMPLE"
    AWS_SECRET_ACCESS_KEY := some "secretexample"
    AWS_REGION := none
    CONTAINER_NAME := some "edge-node"
    hostname := "host-a"
    HEARTBEAT_INTERVAL := some 0
    CLOUDWATCH_NAMESPACE := none
    MONITOR_TARGETS := none
    TARGET_PORT := none
    TARGET_TIMEOUT := some (-3)
    ENABLE_HEALTH_ENDPOINT := none
    HEALTH_PORT := none }

/-- An environment with valid credentials and a negative heartbeat
interval. -/
def wEnv : Env :=
  { AWS_ACCESS_KEY_ID := some "AKIAEXAMPLE"
    AWS_SECRET_ACCESS_KEY := some "secretexample"
    AWS_REGION := none
    CONTAINER_NAME := some "edge-node"
    hostname := "host-a"
    HEARTBEAT_INTERVAL := some (-7)
    CLOUDWATCH_NAMESPACE := none
    MONITOR_TARGETS := none
    TARGET_PORT := none
    TARGET_TIMEOUT := none
    ENABLE_HEALTH_ENDPOINT := none
    HEALTH_PORT := none }

/-- The configuration `_load_config wEnv` accepts. -/
def wCfg : Config :=
  { aws_access_key_id := some "AKIAEXAMPLE"
    aws_secret_access_key := some "secretexample"
    aws_region := "us-east-1"
    container_name := "edge-node"
    heartbeat_interval := -7
    cloudwatch_namespace := "ContainerMonitoring/Heartbeat"
    monitor_targets := []
    target_port := 80
    target_timeout := 5
    enable_health_endpoint := false
    health_port := 8080 }

/-- A probe event for an unresolvable host: the exception is raised one
second after entry. -/
def wProbeEvent : ProbeEvent :=
  { startTime := 0, endTime := 1,
    connectResult := Except.error "gaierror: Name or service not known" }

/-- A configuration with one monitored target. -/
def wcfg : Config :=
  { aws_access_key_id := some "AKIAEXAMPLE"
    aws_secret_access_key := some "secretexample"
    aws_region := "us-east-1"
    container_name := "edge-node"
    heartbeat_interval := 300
    cloudwatch_namespace := "ContainerMonitoring/Heartbeat"
    monitor_targets := ["10.0.0.9"]
    target_port := 80
    target_timeout := 5
    enable_health_endpoint := true
    health_port := 8080 }

/-- The monitor state as constructed by `__init__` at wall time 0. -/
def wst : MonitorState :=
  { running := false, start_time := 0, last_heartbeat := none, target_status := [] }

/-- A tick whose heartbeat sink call succeeds at wall time 42. -/
def wTick : TickOracle :=
  { hbNow := 42, hbOk := true,
    sweep := { now := 43, probeEv := cexProbe, sinkOk := sinkAlways } }

/-! ## Lemmas about the embedded operations -/

theorem attemptBatches_all_ok (sinkOk : Nat → List MetricPoint → Bool)
    (hok : ∀ call b, sinkOk call b = true) :
    ∀ (bs : List (List MetricPoint)) (i : Nat), attemptBatches sinkOk i bs = bs := by
  intro bs
  induction bs with
  | nil => intro i; rfl
  | cons b rest ih =>
    intro i
    simp [attemptBatches, hok i b, ih (i + 1)]

theorem chunk20Go_length :
    ∀ (n : Nat) (l : List MetricPoint), l.length ≤ n →
      (chunk20Go n l).length = (l.length + 19) / 20 := by
  intro n
  induction n with
  | zero =>
    intro l hl
    have : l = [] := List.eq_nil_of_length_eq_zero (Nat.le_zero.mp hl)
    subst this; rfl
  | succ n ih =>
    intro l hl
    cases l with
    | nil => rfl
    | cons m ms =>
      have hlen : ((m :: ms).drop 20).length = (m :: ms).length - 20 := by
        simp [List.length_drop]
      have hle : ((m :: ms).drop 20).length ≤ n := by
        rw [hlen]; simp only [List.length_cons] at hl ⊢; omega
      have := ih ((m :: ms).drop 20) hle
      simp only [chunk20Go, List.length_cons, this, hlen, List.length_cons]
      omega

theorem chunk20_length (metrics : List MetricPoint) :
    (chunk20 metrics).length = (metrics.length + 19) / 20 :=
  chunk20Go_length metrics.length metrics (Nat.le_refl _)

theorem chunk20Go_mem_le :
    ∀ (n : Nat) (l b : List MetricPoint), b ∈ chunk20Go n l → b.length ≤ 20 := by
  intro n
  induction n with
  | zero => intro l b hb; simp [chunk20Go] at hb
  | succ n ih =>
    intro l b hb
    cases l with
    | nil => simp [chunk20Go] at hb
    | cons m ms =>
      simp only [chunk20Go, List.mem_cons] at hb
      rcases hb with hb | hb
      · subst hb
        rw [List.length_take]
        exact min_le_left _ _
      · exact ih _ _ hb

theorem chunk20_mem_le (metrics b : List MetricPoint) (hb : b ∈ chunk20 metrics) :
    b.length ≤ 20 :=
  chunk20Go_mem_le metrics.length metrics b hb

theorem attemptBatches_take_gen (sinkOk : Nat → List MetricPoint → Bool) :
    ∀ (bs : List (List MetricPoint)) (i k : Nat) (bk : List MetricPoint),
      bs[k]? = some bk →
      sinkOk (i + k) bk = false →
      (∀ j b', j < k → bs[j]? = some b' → sinkOk (i + j) b' = true) →
      attemptBatches sinkOk i bs = bs.take (k + 1) := by
  intro bs
  induction bs with
  | nil => intro i k bk hget; simp at hget
  | cons b rest ih =>
    intro i k bk hget hfail hprev
    cases k with
    | zero =>
      simp only [List.getElem?_cons_zero, Option.some.injEq] at hget
      subst hget
      simp only [Nat.add_zero] at hfail
      simp [attemptBatches, hfail]
    | succ k =>
      have h0 : sinkOk i b = true := by
        have := hprev 0 b (Nat.succ_pos k) (by simp)
        simpa using this
      simp only [List.getElem?_cons_succ] at hget
      have hfail' : sinkOk ((i + 1) + k) bk = false := by
        have : (i + 1) + k = i + (k + 1) := by omega
        rw [this]; exact hfail
      have hprev' : ∀ j b', j < k → rest[j]? = some b' → sinkOk ((i + 1) + j) b' = true := by
        intro j b' hj hget'
        have : (i + 1) + j = i + (j + 1) := by omega
        rw [this]
        exact hprev (j + 1) b' (Nat.succ_lt_succ hj) (by simpa using hget')
      simp [attemptBatches, h0, ih (i + 1) k bk hget hfail' hprev']

theorem dictGet_dictSet (k t : String) (v : StatusEntry) :
    ∀ d : List (String × StatusEntry),
      dictGet t (dictSet k v d) = if k = t then some v else dictGet t d := by
  intro d
  induction d with
  | nil => by_cases h : k = t <;> simp [dictGet, dictSet, h]
  | cons p rest ih =>
    obtain ⟨k', v'⟩ := p
    by_cases hk : k' = k
    · subst hk
      by_cases ht : k' = t <;> simp [dictSet, dictGet, ht]
    · have hk2 : ¬ k = k' := fun h => hk h.symm
      by_cases ht : k' = t
      · subst ht
        simp [dictSet, dictGet, hk, hk2]
      · simp [dictSet, dictGet, hk, ht, ih]

theorem mem_keys_dictSet (k t : String) (v : StatusEntry) :
    ∀ d : List (String × StatusEntry),
      t ∈ (dictSet k v d).map Prod.fst ↔ t = k ∨ t ∈ d.map Prod.fst := by
  intro d
  induction d with
  | nil => simp [dictSet]
  | cons p rest ih =>
    obtain ⟨k', v'⟩ := p
    by_cases hk : k' = k
    · subst hk
      have hs : dictSet k' v ((k', v') :: rest) = (k', v) :: rest := by
        simp [dictSet]
      rw [hs]
      simp only [List.map_cons, List.mem_cons]
      tauto
    · simp only [dictSet, if_neg hk, List.map_cons, List.mem_cons, ih]
      tauto

theorem dictGet_sweepWrite_not_mem (probeEv : String → ProbeEvent) (now : Rat)
    (t : String) :
    ∀ (l : List String) (ts : List (String × StatusEntry)), t ∉ l →
      dictGet t (sweepWrite probeEv now l ts) = dictGet t ts := by
  intro l
  induction l with
  | nil => intro ts _; rfl
  | cons target rest ih =>
    intro ts hmem
    have h1 : t ∉ rest := fun h => hmem (List.mem_cons_of_mem _ h)
    have h2 : ¬ target = t := fun h => hmem (h ▸ List.mem_cons_self _ _)
    simp only [sweepWrite, ih _ h1, dictGet_dictSet, if_neg h2]

theorem dictGet_sweepWrite_mem (probeEv : String → ProbeEvent) (now : Rat)
    (t : String) :
    ∀ (l : List String) (ts : List (String × StatusEntry)), t ∈ l →
      dictGet t (sweepWrite probeEv now l ts) = some (mkEntry probeEv now t) := by
  intro l
  induction l with
  | nil => intro ts h; simp at h
  | cons target rest ih =>
    intro ts hmem
    by_cases hr : t ∈ rest
    · simp only [sweepWrite, ih _ hr]
    · have ht : target = t := by
        rcases List.mem_cons.mp hmem with h | h
        · exact h.symm
        · exact absurd h hr
      subst ht
      simp [sweepWrite, dictGet_sweepWrite_not_mem probeEv now target rest _ hr,
        dictGet_dictSet]

theorem mem_keys_sweepWrite (probeEv : String → ProbeEvent) (now : Rat) (t : String) :
    ∀ (l : List String) (ts : List (String × StatusEntry)),
      t ∈ (sweepWrite probeEv now l ts).map Prod.fst ↔
        t ∈ l ∨ t ∈ ts.map Prod.fst := by
  intro l
  induction l with
  | nil => intro ts; simp [sweepWrite]
  | cons target rest ih =>
    intro ts
    simp only [sweepWrite, ih, mem_keys_dictSet, List.mem_cons]
    tauto

theorem sweepStates_getD (probeEv : String → ProbeEvent) (now : Rat) :
    ∀ (l : List String) (ts : List (String × StatusEntry)) (k : Nat),
      k ≤ l.length →
      (sweepStates probeEv now l ts).getD k [] = sweepWrite probeEv now (l.take k) ts := by
  intro l
  induction l with
  | nil =>
    intro ts k hk
    have : k = 0 := Nat.le_zero.mp hk
    subst this
    rfl
  | cons target rest ih =>
    intro ts k hk
    cases k with
    | zero => rfl
    | succ k =>
      have hk' : k ≤ rest.length := by
        simp only [List.length_cons] at hk; omega
      simp only [sweepStates, List.getD_cons_succ, List.take_succ_cons, sweepWrite]
      exact ih _ k hk'

theorem send_heartbeat_target_status (cfg : Config) (current_time : Rat) (hbOk : Bool)
    (st : MonitorState) :
    (send_heartbeat cfg current_time hbOk st).target_status = st.target_status := by
  cases hbOk <;> rfl

theorem send_heartbeat_running (cfg : Config) (current_time : Rat) (hbOk : Bool)
    (st : MonitorState) :
    (send_heartbeat cfg current_time hbOk st).running = st.running := by
  cases hbOk <;> rfl

theorem send_target_metrics_target_status (cfg : Config) (o : SweepOracle)
    (st : MonitorState) :
    (send_target_metrics cfg o st).target_status =
      if cfg.monitor_targets = [] then st.target_status
      else sweepWrite o.probeEv o.now cfg.monitor_targets st.target_status := by
  by_cases h : cfg.monitor_targets = []
  · simp [send_target_metrics, send_target_metrics_run, h]
  · by_cases hm : sweep_metrics cfg o.probeEv o.now cfg.monitor_targets = [] <;>
      simp [send_target_metrics, send_target_metrics_run, h, hm]

theorem send_target_metrics_last_heartbeat (cfg : Config) (o : SweepOracle)
    (st : MonitorState) :
    (send_target_metrics cfg o st).last_heartbeat = st.last_heartbeat := by
  by_cases h : cfg.monitor_targets = []
  · simp [send_target_metrics, send_target_metrics_run, h]
  · by_cases hm : sweep_metrics cfg o.probeEv o.now cfg.monitor_targets = [] <;>
      simp [send_target_metrics, send_target_metrics_run, h, hm]

theorem send_target_metrics_running (cfg : Config) (o : SweepOracle)
    (st : MonitorState) :
    (send_target_metrics cfg o st).running = st.running := by
  by_cases h : cfg.monitor_targets = []
  · simp [send_target_metrics, send_target_metrics_run, h]
  · by_cases hm : sweep_metrics cfg o.probeEv o.now cfg.monitor_targets = [] <;>
      simp [send_target_metrics, send_target_metrics_run, h, hm]

theorem send_heartbeat_last_heartbeat (cfg : Config) (current_time : Rat) (hbOk : Bool)
    (st : MonitorState) :
    (send_heartbeat cfg current_time hbOk st).last_heartbeat =
      if hbOk then some current_time else st.last_heartbeat := by
  cases hbOk <;> rfl

theorem run_loop_body_running (cfg : Config) (o : TickOracle) (st : MonitorState) :
    (run_loop_body cfg o st).running = st.running := by
  by_cases h : cfg.monitor_targets = [] <;>
    simp [run_loop_body, h, send_target_metrics_running, send_heartbeat_running]

theorem run_loop_running (cfg : Config) :
    ∀ (os : List TickOracle) (st : MonitorState),
      (run_loop cfg os st).running = st.running := by
  intro os
  induction os with
  | nil => intro st; rfl
  | cons o rest ih =>
    intro st
    show (run_loop cfg rest (run_loop_body cfg o st)).running = st.running
    rw [ih, run_loop_body_running]

theorem Reach_keys_subset {cfg : Config} {st : MonitorState} (h : Reach cfg st) :
    ∀ t, t ∈ st.target_status.map Prod.fst → t ∈ cfg.monitor_targets := by
  induction h with
  | init t0 => intro t ht; simp at ht
  | start st _ ih => intro t ht; exact ih t ht
  | stop st _ ih => intro t ht; exact ih t ht
  | heartbeat st now hbOk _ ih =>
    intro t ht
    rw [send_heartbeat_target_status] at ht
    exact ih t ht
  | sweep st o _ ih =>
    intro t ht
    rw [send_target_metrics_target_status] at ht
    by_cases hc : cfg.monitor_targets = []
    · rw [if_pos hc] at ht; exact ih t ht
    · rw [if_neg hc] at ht
      rcases (mem_keys_sweepWrite _ _ _ _ _).mp ht with h1 | h1
      · exact h1
      · exact ih t h1
  | sweepMid st probeEv now k _ hne ih =>
    intro t ht
    rcases (mem_keys_sweepWrite _ _ _ _ _).mp ht with h1 | h1
    · exact List.take_subset k _ h1
    · exact ih t h1

/-! ## The claims -/

/-- C1 (corrected): in `send_target_metrics`, a failure of the sink
call for batch `k` aborts the batching loop — the raised exception
propagates to the function-level handler, so the batches attempted in
that tick are exactly the first `k + 1` (every batch after the failing
one is skipped).  The original claim, that every remaining batch is
still attempted, is refuted by `batch_failure_blocks_next_batch_cex`. -/
theorem batch_failure_aborts_remaining_batches
    (sinkOk : Nat → List MetricPoint → Bool) (metrics : List MetricPoint)
    (k : Nat) (bk : List MetricPoint)
    (hget : (chunk20 metrics)[k]? = some bk)
    (hfail : sinkOk k bk = false)
    (hprev : ∀ j b', j < k → (chunk20 metrics)[j]? = some b' → sinkOk j b' = true) :
    attemptBatches sinkOk 0 (chunk20 metrics) = (chunk20 metrics).take (k + 1) := by
  apply attemptBatches_take_gen sinkOk (chunk20 metrics) 0 k bk hget
  · simpa using hfail
  · intro j b' hj hget'
    simpa using hprev j b' hj hget'

/-- Witness for C1's amended theorem: 41 points form three batches;
the sink accepts call 0 and rejects call 1, and exactly the first two
batches are attempted. -/
theorem batch_failure_aborts_remaining_batches_witness :
    ((chunk20 (List.replicate 41 mpt))[1]? = some (List.replicate 20 mpt))
    ∧ sinkFirstOnly 1 (List.replicate 20 mpt) = false
    ∧ attemptBatches sinkFirstOnly 0 (chunk20 (List.replicate 41 mpt))
        = (chunk20 (List.replicate 41 mpt)).take 2 := by
  refine ⟨rfl, rfl, ?_⟩
  apply batch_failure_aborts_remaining_batches sinkFirstOnly (List.replicate 41 mpt)
    1 (List.replicate 20 mpt) rfl rfl
  intro j b' hj _
  have hj0 : j = 0 := by omega
  subst hj0
  rfl

/-- Counterexample to C1 as stated: with 21 points (two batches) and a
sink that rejects every call, only the first batch is ever submitted —
the failure of batch 0 prevents the submission of batch 1. -/
theorem batch_failure_blocks_next_batch_cex :
    (chunk20 (List.replicate 21 mpt)).length = 2
    ∧ attemptBatches sinkNever 0 (chunk20 (List.replicate 21 mpt))
        = [List.replicate 20 mpt] :=
  ⟨rfl, rfl⟩

/-- C2 (confirmed): when every sink call of the tick succeeds, the
batching loop over `N` metric points makes exactly `ceil(N / 20)`
`put_metric_data` calls, and every call carries at most 20 points. -/
theorem emitter_batch_count_and_size
    (sinkOk : Nat → List MetricPoint → Bool) (metrics : List MetricPoint)
    (hN : 20 < metrics.length) (hok : ∀ call b, sinkOk call b = true) :
    attemptBatches sinkOk 0 (chunk20 metrics) = chunk20 metrics
    ∧ (chunk20 metrics).length = (metrics.length + 19) / 20
    ∧ ∀ b ∈ chunk20 metrics, b.length ≤ 20 :=
  ⟨attemptBatches_all_ok sinkOk hok (chunk20 metrics) 0,
   chunk20_length metrics,
   fun b hb => chunk20_mem_le metrics b hb⟩

/-- Witness for C2: 21 points and an all-accepting sink give
`ceil(21 / 20) = 2` calls of at most 20 points each. -/
theorem emitter_batch_count_and_size_witness :
    (20 < (List.replicate 21 mpt).length)
    ∧ (∀ call b, sinkAlways call b = true)
    ∧ (attemptBatches sinkAlways 0 (chunk20 (List.replicate 21 mpt))
        = chunk20 (List.replicate 21 mpt)
      ∧ (chunk20 (List.replicate 21 mpt)).length = ((List.replicate 21 mpt).length + 19) / 20
      ∧ ∀ b ∈ chunk20 (List.replicate 21 mpt), b.length ≤ 20) :=
  ⟨by decide, fun _ _ => rfl,
   emitter_batch_count_and_size sinkAlways (List.replicate 21 mpt) (by decide)
     (fun _ _ => rfl)⟩

/-- C3 (confirmed): provided the wall clock does not run backwards
between the probe's two readings, `check_target_connectivity` reports
every failure mode — a raised exception (timeout, refusal,
host-resolution failure) or a nonzero `connect_ex` code — as
`online = false`, with the latency equal to the elapsed wall time up
to the point of failure, a nonnegative value.  The function is total,
so no failure escapes its boundary. -/
theorem probe_failure_yields_offline_nonneg_latency (ev : ProbeEvent)
    (hclock : ev.startTime ≤ ev.endTime) :
    0 ≤ (check_target_connectivity ev).2
    ∧ (check_target_connectivity ev).2 = (ev.endTime - ev.startTime) * 1000
    ∧ (∀ msg, ev.connectResult = Except.error msg →
        (check_target_connectivity ev).1 = false)
    ∧ (∀ code, ev.connectResult = Except.ok code → code ≠ 0 →
        (check_target_connectivity ev).1 = false) := by
  obtain ⟨s, e, cr⟩ := ev
  simp only at hclock
  have hn : (0 : Rat) ≤ (e - s) * 1000 :=
    mul_nonneg (by linarith) (by norm_num)
  cases cr with
  | ok code =>
    refine ⟨hn, rfl, ?_, ?_⟩
    · intro msg hmsg; cases hmsg
    · intro c hc hne
      have : code = c := by
        simpa using hc
      subst this
      simp [check_target_connectivity, hne]
  | error msg =>
    refine ⟨hn, rfl, ?_, ?_⟩
    · intro _ _; rfl
    · intro c hc; cases hc

/-- Witness for C3: a host-resolution failure raised one second after
entry yields `online = false` and latency `(1 - 0) * 1000 ≥ 0`. -/
theorem probe_failure_yields_offline_nonneg_latency_witness :
    (wProbeEvent.startTime ≤ wProbeEvent.endTime)
    ∧ (0 ≤ (check_target_connectivity wProbeEvent).2
      ∧ (check_target_connectivity wProbeEvent).2
          = (wProbeEvent.endTime - wProbeEvent.startTime) * 1000
      ∧ (∀ msg, wProbeEvent.connectResult = Except.error msg →
          (check_target_connectivity wProbeEvent).1 = false)
      ∧ (∀ code, wProbeEvent.connectResult = Except.ok code → code ≠ 0 →
          (check_target_connectivity wProbeEvent).1 = false)) :=
  ⟨zero_le_one, probe_failure_yields_offline_nonneg_latency wProbeEvent zero_le_one⟩

/-- C4 (corrected): the sweep does not replace `target_status` in a
single atomic swap after all probe results are assembled — it performs
one in-place dict assignment per target, as it probes.  The state
observable after the first `k` assignments is the old dict with only
the first `k` targets overwritten: looked-up entries of not yet
processed targets still come from the previous sweep, while processed
targets already show the new sweep's entries, so a reader scheduled
between two assignments observes a mix of old and new entries.  The
original single-swap claim is refuted by
`sweep_midstate_mixes_old_and_new_cex`. -/
theorem sweep_midstate_prefix_update
    (probeEv : String → ProbeEvent) (now : Rat) (targets : List String)
    (ts0 : List (String × StatusEntry)) (k : Nat) (hk : k ≤ targets.length) :
    (sweepStates probeEv now targets ts0).getD k []
        = sweepWrite probeEv now (targets.take k) ts0
    ∧ (∀ t, t ∉ targets.take k →
        dictGet t (sweepWrite probeEv now (targets.take k) ts0) = dictGet t ts0)
    ∧ (∀ t, t ∈ targets.take k →
        dictGet t (sweepWrite probeEv now (targets.take k) ts0)
          = some (mkEntry probeEv now t)) :=
  ⟨sweepStates_getD probeEv now targets ts0 k hk,
   fun t ht => dictGet_sweepWrite_not_mem probeEv now t _ ts0 ht,
   fun t ht => dictGet_sweepWrite_mem probeEv now t _ ts0 ht⟩

/-- Witness for C4's amended theorem: a two-target sweep, observed
after its first assignment. -/
theorem sweep_midstate_prefix_update_witness :
    (1 ≤ (["10.0.0.1", "10.0.0.2"] : List String).length)
    ∧ ((sweepStates cexProbe 1 ["10.0.0.1", "10.0.0.2"] cexOld).getD 1 []
        = sweepWrite cexProbe 1 ((["10.0.0.1", "10.0.0.2"] : List String).take 1) cexOld
      ∧ (∀ t, t ∉ (["10.0.0.1", "10.0.0.2"] : List String).take 1 →
          dictGet t (sweepWrite cexProbe 1
            ((["10.0.0.1", "10.0.0.2"] : List String).take 1) cexOld) = dictGet t cexOld)
      ∧ (∀ t, t ∈ (["10.0.0.1", "10.0.0.2"] : List String).take 1 →
          dictGet t (sweepWrite cexProbe 1
            ((["10.0.0.1", "10.0.0.2"] : List String).take 1) cexOld)
            = some (mkEntry cexProbe 1 t))) :=
  ⟨by decide,
   sweep_midstate_prefix_update cexProbe 1 ["10.0.0.1", "10.0.0.2"] cexOld 1 (by decide)⟩

/-- Counterexample to C4 as stated: midway through a sweep at wall
time 1 over a dict from a sweep at wall time 0, the observable dict
already shows the new entry for the first target (`last_check = 1`)
while still showing the old entry for the second (`last_check = 0`);
this intermediate state differs from both the pre-sweep and the
post-sweep dict, so the mapping is not replaced in one atomic swap. -/
theorem sweep_midstate_mixes_old_and_new_cex :
    Option.map StatusEntry.last_check (dictGet "10.0.0.1" cexMid) = some 1
    ∧ dictGet "10.0.0.2" cexMid
        = some { online := true, response_time := 7, last_check := 0 }
    ∧ cexMid ≠ cexOld
    ∧ cexMid ≠ cexFinal := by
  refine ⟨rfl, rfl, ?_, ?_⟩
  · intro h
    have h1 := congrArg
      (fun d => Option.map StatusEntry.last_check (dictGet "10.0.0.1" d)) h
    have h2 : some (1 : Rat) = some 0 := h1
    exact one_ne_zero (Option.some.inj h2)
  · intro h
    have h1 := congrArg
      (fun d => Option.map StatusEntry.last_check (dictGet "10.0.0.2" d)) h
    have h2 : some (0 : Rat) = some 1 := h1
    exact zero_ne_one (Option.some.inj h2)

/-- C5 (corrected): `_parse_targets` does not deduplicate — it keeps
one element per nonempty stripped component of the comma-separated
input, with multiplicity: a host occurring `k` times among the
stripped components occurs `k` times in the parsed list.  The original
no-repeats claim is refuted by `parse_targets_keeps_duplicates_cex`. -/
theorem parse_targets_multiplicity (s t : String) (ht : t ≠ "") :
    (_parse_targets s).count t = ((pySplit s ',').map pyStrip).count t := by
  by_cases hs : s = ""
  · subst hs
    have h1 : _parse_targets "" = [] := rfl
    have h2 : (pySplit "" ',').map pyStrip = [""] := rfl
    rw [h1, h2]
    simp [List.count_cons, Ne.symm ht]
  · simp only [_parse_targets, if_neg hs]
    exact List.count_filter (by simpa using ht)

/-- Witness for C5's amended theorem: `"a,,a"` has stripped components
`["a", "", "a"]`, and `"a"` keeps multiplicity 2 in the parsed list. -/
theorem parse_targets_multiplicity_witness :
    (("a" : String) ≠ "")
    ∧ (_parse_targets "a,,a").count "a" = ((pySplit "a,,a" ',').map pyStrip).count "a" :=
  ⟨by decide, parse_targets_multiplicity "a,,a" "a" (by decide)⟩

/-- Counterexample to C5 as stated: an input repeating one host yields
a parsed list with that host twice — not a set without repeats. -/
theorem parse_targets_keeps_duplicates_cex :
    _parse_targets "10.0.0.1,10.0.0.1" = ["10.0.0.1", "10.0.0.1"]
    ∧ ¬ (_parse_targets "10.0.0.1,10.0.0.1").Nodup :=
  ⟨by decide, by decide⟩

/-- Unfolding of `_load_config` used to settle C6. -/
theorem load_config_eq (env : Env) :
    _load_config env =
      if ¬ pyTruthyStr env.AWS_ACCESS_KEY_ID ∨ ¬ pyTruthyStr env.AWS_SECRET_ACCESS_KEY
      then Except.error "AWS_ACCESS_KEY_ID and AWS_SECRET_ACCESS_KEY must be set"
      else Except.ok {
        aws_access_key_id := env.AWS_ACCESS_KEY_ID
        aws_secret_access_key := env.AWS_SECRET_ACCESS_KEY
        aws_region := env.AWS_REGION.getD "us-east-1"
        container_name := env.CONTAINER_NAME.getD env.hostname
        heartbeat_interval := env.HEARTBEAT_INTERVAL.getD 300
        cloudwatch_namespace := env.CLOUDWATCH_NAMESPACE.getD "ContainerMonitoring/Heartbeat"
        monitor_targets := _parse_targets (env.MONITOR_TARGETS.getD "")
        target_port := env.TARGET_PORT.getD 80
        target_timeout := env.TARGET_TIMEOUT.getD 5
        enable_health_endpoint := pyLower (env.ENABLE_HEALTH_ENDPOINT.getD "false") = "true"
        health_port := env.HEALTH_PORT.getD 8080 } :=
  rfl

/-- C6 (corrected): configuration construction succeeds exactly when
both AWS credentials are present and nonempty; the heartbeat interval
and target timeout are passed through without any positivity check, so
an accepted configuration can carry a zero or negative interval or
timeout (see `load_config_accepts_nonpositive_interval_cex`). -/
theorem load_config_validates_only_credentials (env : Env) :
    ((_load_config env).isOk
      = (pyTruthyStr env.AWS_ACCESS_KEY_ID && pyTruthyStr env.AWS_SECRET_ACCESS_KEY))
    ∧ ∀ cfg, _load_config env = Except.ok cfg →
        cfg.heartbeat_interval = env.HEARTBEAT_INTERVAL.getD 300
        ∧ cfg.target_timeout = env.TARGET_TIMEOUT.getD 5 := by
  rw [load_config_eq]
  by_cases h1 : pyTruthyStr env.AWS_ACCESS_KEY_ID <;>
    by_cases h2 : pyTruthyStr env.AWS_SECRET_ACCESS_KEY
  · refine ⟨by simp [h1, h2, Except.isOk, Except.toBool], ?_⟩
    intro cfg hcfg
    rw [if_neg (by simp [h1, h2])] at hcfg
    cases hcfg
    exact ⟨rfl, rfl⟩
  · refine ⟨by simp [h1, h2, Except.isOk, Except.toBool], ?_⟩
    intro cfg hcfg
    rw [if_pos (by simp [h2])] at hcfg
    cases hcfg
  · refine ⟨by simp [h1, h2, Except.isOk, Except.toBool], ?_⟩
    intro cfg hcfg
    rw [if_pos (by simp [h1])] at hcfg
    cases hcfg
  · refine ⟨by simp [h1, h2, Except.isOk, Except.toBool], ?_⟩
    intro cfg hcfg
    rw [if_pos (by simp [h1])] at hcfg
    cases hcfg

/-- Witness for C6's amended theorem: an environment with valid
credentials and a negative `HEARTBEAT_INTERVAL` is accepted, with the
value passed through unchanged. -/
theorem load_config_validates_only_credentials_witness :
    ((_load_config wEnv).isOk
      = (pyTruthyStr wEnv.AWS_ACCESS_KEY_ID && pyTruthyStr wEnv.AWS_SECRET_ACCESS_KEY))
    ∧ (_load_config wEnv = Except.ok wCfg)
    ∧ wCfg.heartbeat_interval = wEnv.HEARTBEAT_INTERVAL.getD 300
    ∧ wCfg.target_timeout = wEnv.TARGET_TIMEOUT.getD 5 :=
  ⟨(load_config_validates_only_credentials wEnv).1, rfl,
   (load_config_validates_only_credentials wEnv).2 wCfg rfl⟩

/-- Counterexample to C6 as stated: an environment with a zero
heartbeat interval and a negative target timeout is accepted by
`_load_config` instead of being rejected. -/
theorem load_config_accepts_nonpositive_interval_cex :
    (_load_config zenv).isOk = true
    ∧ Except.map Config.heartbeat_interval (_load_config zenv) = Except.ok 0
    ∧ Except.map Config.target_timeout (_load_config zenv) = Except.ok (-3) :=
  ⟨rfl, rfl, rfl⟩

/-- C7 (confirmed): over the whole process lifetime — including
mid-sweep states — every key of `target_status` is a configured
target, and after any completed sweep the key set of `target_status`
equals the set of configured targets (so their cardinalities agree;
the configured targets are counted as a set, matching the spec's
set-valued `Configuration.targets`). -/
theorem target_status_keys_invariant (cfg : Config) (st : MonitorState)
    (h : Reach cfg st) :
    (∀ t, t ∈ st.target_status.map Prod.fst → t ∈ cfg.monitor_targets)
    ∧ ∀ o : SweepOracle,
        (∀ t, t ∈ (send_target_metrics cfg o st).target_status.map Prod.fst
            ↔ t ∈ cfg.monitor_targets)
        ∧ ((send_target_metrics cfg o st).target_status.map Prod.fst).toFinset
            = cfg.monitor_targets.toFinset := by
  have hsub := Reach_keys_subset h
  refine ⟨hsub, ?_⟩
  intro o
  have hmem : ∀ t, t ∈ (send_target_metrics cfg o st).target_status.map Prod.fst
      ↔ t ∈ cfg.monitor_targets := by
    intro t
    rw [send_target_metrics_target_status]
    by_cases hc : cfg.monitor_targets = []
    · rw [if_pos hc]
      constructor
      · exact hsub t
      · intro hm; rw [hc] at hm; simp at hm
    · rw [if_neg hc, mem_keys_sweepWrite]
      constructor
      · rintro (h1 | h1)
        · exact h1
        · exact hsub t h1
      · exact Or.inl
  refine ⟨hmem, ?_⟩
  ext t
  simp only [List.mem_toFinset]
  exact hmem t

/-- Witness for C7: the freshly constructed monitor under a one-target
configuration. -/
theorem target_status_keys_invariant_witness :
    Reach wcfg wst
    ∧ ((∀ t, t ∈ wst.target_status.map Prod.fst → t ∈ wcfg.monitor_targets)
      ∧ ∀ o : SweepOracle,
          (∀ t, t ∈ (send_target_metrics wcfg o wst).target_status.map Prod.fst
              ↔ t ∈ wcfg.monitor_targets)
          ∧ ((send_target_metrics wcfg o wst).target_status.map Prod.fst).toFinset
              = wcfg.monitor_targets.toFinset) :=
  ⟨Reach.init 0, target_status_keys_invariant wcfg wst (Reach.init 0)⟩

/-- C8 (confirmed): `send_heartbeat` and `send_target_metrics` both
absorb their failures, so no failure inside a tick terminates the
scheduler loop: after arbitrarily many ticks with arbitrary sink,
probe and heartbeat failures, a further tick still executes — its
successful heartbeat lands in `last_heartbeat` — and the loop never
clears the `running` flag. -/
theorem tick_failures_do_not_stop_loop (cfg : Config) (st : MonitorState)
    (os : List TickOracle) (o : TickOracle) (hok : o.hbOk = true) :
    (run_loop cfg (os ++ [o]) st).last_heartbeat = some o.hbNow
    ∧ (run_loop cfg (os ++ [o]) st).running = st.running := by
  have happ : run_loop cfg (os ++ [o]) st
      = run_loop_body cfg o (run_loop cfg os st) := by
    show (os ++ [o]).foldl _ st = _
    rw [List.foldl_append]
    rfl
  have hbody : ∀ s : MonitorState,
      (run_loop_body cfg o s).last_heartbeat = some o.hbNow := by
    intro s
    by_cases hc : cfg.monitor_targets = []
    · simp [run_loop_body, hc, send_heartbeat_last_heartbeat, hok]
    · simp [run_loop_body, hc, send_target_metrics_last_heartbeat,
        send_heartbeat_last_heartbeat, hok]
  constructor
  · rw [happ]; exact hbody _
  · rw [happ, run_loop_body_running, run_loop_running]

/-- Witness for C8: a single tick with a succeeding heartbeat, run
from the freshly constructed state. -/
theorem tick_failures_do_not_stop_loop_witness :
    wTick.hbOk = true
    ∧ ((run_loop wcfg ([] ++ [wTick]) wst).last_heartbeat = some wTick.hbNow
      ∧ (run_loop wcfg ([] ++ [wTick]) wst).running = wst.running) :=
  ⟨rfl, tick_failures_do_not_stop_loop wcfg wst [] wTick rfl⟩

/-- C9 (confirmed): the health view's `status` is `"healthy"` exactly
when the running flag is set — it does not depend on the per-target
results at all — and its `target_status` field is `None` exactly when
no targets are configured. -/
theorem health_status_iff_running (cfg : Config) (st : MonitorState) (now : Rat) :
    ((health cfg st now).status = "healthy" ↔ st.running = true)
    ∧ ((health cfg st now).target_status = none ↔ cfg.monitor_targets = [])
    ∧ ∀ ts, (health cfg { st with target_status := ts } now).status
        = (health cfg st now).status := by
  refine ⟨?_, ?_, fun ts => rfl⟩
  · cases hr : st.running <;> simp [health, hr]
  · by_cases hc : cfg.monitor_targets = [] <;> simp [health, hc]

/-- C10 (confirmed): `last_heartbeat` is assigned only after the
heartbeat's `put_metric_data` call succeeds; when the call raises, the
whole monitor state — `last_heartbeat` included — is left exactly as
it was before the attempt. -/
theorem last_heartbeat_update_iff_success (cfg : Config) (current_time : Rat)
    (hbOk : Bool) (st : MonitorState) :
    (send_heartbeat cfg current_time hbOk st).last_heartbeat
      = (if hbOk then some current_time else st.last_heartbeat)
    ∧ send_heartbeat cfg current_time false st = st :=
  ⟨send_heartbeat_last_heartbeat cfg current_time hbOk st, rfl⟩
